import Mathlib

/-!
# Carsa loyalty-token program: a shallow embedding

This file embeds the accounting core of the Carsa Solana program
(`programs/carsa/src`) in Lean 4 and proves the spec's claims about it.

Modelling conventions:
* `u64` / `u128` values are `Nat` together with explicit bounds
  (`U64_MOD = 2^64`, `U128_MOD = 2^128`); Rust's `checked_*` operations
  become `Option Nat` helpers that return `none` exactly when the Rust
  operation returns `None`.
* Rust's `u128 as u64` cast (a silently wrapping narrowing) is `% U64_MOD`.
* Solana account keys (`Pubkey`) are abstracted to `Nat` identifiers;
  timestamps (`i64`) to `Int`.
* Each Anchor instruction handler becomes a pure function returning
  `Except CarsaError _`; Anchor account `constraint`s that gate a handler
  (e.g. `merchant_account.is_active`, `deposits_enabled`) are checked at
  the head of the function, since Anchor validates accounts before the
  handler body runs.  Token balances live in SPL token accounts, which the
  spec treats as an external token-transfer service; where a claim needs
  them they are passed as explicit `Nat` arguments.
-/

set_option linter.unnecessarySeqFocus false

/-- 2^64, the modulus of Rust's `u64`. -/
def U64_MOD : Nat := 18446744073709551616

/-- 2^128, the modulus of Rust's `u128`. -/
def U128_MOD : Nat := 340282366920938463463374607431768211456

/-- Rust `u64::checked_add`. -/
def checkedAdd64 (a b : Nat) : Option Nat :=
  if a + b < U64_MOD then some (a + b) else none

/-- Rust `u64::checked_sub`. -/
def checkedSub64 (a b : Nat) : Option Nat :=
  if b ≤ a then some (a - b) else none

/-- Rust `u64::checked_mul`. -/
def checkedMul64 (a b : Nat) : Option Nat :=
  if a * b < U64_MOD then some (a * b) else none

/-- Rust `u64::checked_div` (fails only on division by zero). -/
def checkedDiv64 (a b : Nat) : Option Nat :=
  if b = 0 then none else some (a / b)

/-- Rust `u128::checked_add`. -/
def checkedAdd128 (a b : Nat) : Option Nat :=
  if a + b < U128_MOD then some (a + b) else none

/-- Rust `u128::checked_sub`. -/
def checkedSub128 (a b : Nat) : Option Nat :=
  if b ≤ a then some (a - b) else none

/-- Rust `u128::checked_mul`. -/
def checkedMul128 (a b : Nat) : Option Nat :=
  if a * b < U128_MOD then some (a * b) else none

/-- Rust `u128::checked_div` (fails only on division by zero). -/
def checkedDiv128 (a b : Nat) : Option Nat :=
  if b = 0 then none else some (a / b)

theorem checkedAdd64_eq_some {a b c : Nat} :
    checkedAdd64 a b = some c ↔ a + b < U64_MOD ∧ c = a + b := by
  unfold checkedAdd64; split <;> simp_all <;> omega

theorem checkedSub64_eq_some {a b c : Nat} :
    checkedSub64 a b = some c ↔ b ≤ a ∧ c = a - b := by
  unfold checkedSub64; split <;> simp_all <;> omega

theorem checkedMul64_eq_some {a b c : Nat} :
    checkedMul64 a b = some c ↔ a * b < U64_MOD ∧ c = a * b := by
  unfold checkedMul64; split <;> simp_all <;> omega

theorem checkedDiv64_eq_some {a b c : Nat} :
    checkedDiv64 a b = some c ↔ b ≠ 0 ∧ c = a / b := by
  unfold checkedDiv64; split <;> simp_all <;> omega

theorem checkedAdd128_eq_some {a b c : Nat} :
    checkedAdd128 a b = some c ↔ a + b < U128_MOD ∧ c = a + b := by
  unfold checkedAdd128; split <;> simp_all <;> omega

theorem checkedSub128_eq_some {a b c : Nat} :
    checkedSub128 a b = some c ↔ b ≤ a ∧ c = a - b := by
  unfold checkedSub128; split <;> simp_all <;> omega

theorem checkedMul128_eq_some {a b c : Nat} :
    checkedMul128 a b = some c ↔ a * b < U128_MOD ∧ c = a * b := by
  unfold checkedMul128; split <;> simp_all <;> omega

theorem checkedDiv128_eq_some {a b c : Nat} :
    checkedDiv128 a b = some c ↔ b ≠ 0 ∧ c = a / b := by
  unfold checkedDiv128; split <;> simp_all <;> omega

/-- The error enum of `error.rs` (`CarsaError`). -/
inductive CarsaError where
  | MintAuthorityMismatch
  | UpdateAuthorityMismatch
  | InvalidMintAmount
  | MintAmountTooLarge
  | ArithmeticOverflow
  | MintNotInitialized
  | InvalidPurchaseAmount
  | PurchaseAmountTooLarge
  | MerchantNotActive
  | InvalidCashbackRate
  | InvalidMerchantName
  | InvalidMerchantCategory
  | MerchantOwnerMismatch
  | ZeroRewardCalculation
  | InvalidTransferAmount
  | TransferAmountTooLarge
  | InsufficientBalance
  | InvalidRedemptionAmount
  | RedemptionAmountTooLarge
  | SelfTransferNotAllowed
  | RedemptionMerchantNotActive
  | InvalidDiscountPercentage
  | InvalidAmount
  | Unauthorized
  | UnauthorizedDelegate
  | DepositsDisabled
  | WithdrawalsDisabled
  | ExceedsMaxStake
  | InvalidVault
  | InvalidMint
  | InvalidOwner
  | Overflow
  | DivisionByZero
  deriving DecidableEq, Repr

/-- `state.rs` `LokalMintConfig`, restricted to its mutable accounting field;
the mint key, authority key and PDA bumps are immutable identifiers with no
bearing on the arithmetic claims. -/
structure LokalMintConfig where
  total_supply : Nat
  deriving DecidableEq, Repr

/-- `state.rs` `MerchantAccount` (wallet key and name/category bytes omitted;
they are set at registration and never touched by the accounting paths). -/
structure MerchantAccount where
  cashback_rate : Nat
  is_active : Bool
  total_transactions : Nat
  total_rewards_distributed : Nat
  total_volume : Nat
  deriving DecidableEq, Repr

/-- `state.rs` `PurchaseTransaction`: the immutable audit row written by
`ProcessPurchase::handler`. -/
structure PurchaseTransaction where
  customer : Nat
  fiat_amount : Nat
  redeemed_token_amount : Nat
  total_value : Nat
  reward_amount : Nat
  cashback_rate : Nat
  used_tokens : Bool
  timestamp : Int
  transaction_id : Nat
  deriving DecidableEq, Repr

/-- `rewards.rs` `MAX_PURCHASE_AMOUNT` (1 billion IDR). -/
def MAX_PURCHASE_AMOUNT : Nat := 1000000000

/-- `rewards.rs` `TOKEN_TO_FIAT_RATE` (1 token = Rp 1,000). -/
def TOKEN_TO_FIAT_RATE : Nat := 1000

/-- Token base-unit scale: 9 decimals (`mint::decimals = 9`). -/
def TOKEN_UNIT : Nat := 1000000000

/-- `rewards.rs` lines 218-222: fiat value of the redeemed tokens,
`redeemed.checked_div(10^9)?.checked_mul(1000)?`. -/
def tokenValueInIdr (redeemed : Nat) : Option Nat :=
  (checkedDiv64 redeemed TOKEN_UNIT).bind fun t => checkedMul64 t TOKEN_TO_FIAT_RATE

/-- `rewards.rs` lines 230-238: the 128-bit reward computation
`(total_value * cashback_rate * 10^9) / 10^4 / 10^3`, every step checked. -/
def rewardCalculation (total_value cashback_rate : Nat) : Option Nat :=
  (checkedMul128 total_value cashback_rate).bind fun a =>
    (checkedMul128 a TOKEN_UNIT).bind fun b =>
      (checkedDiv128 b 10000).bind fun c =>
        checkedDiv128 c 1000

/-- Result of a successful `ProcessPurchase::handler` call: the mutated
config and merchant, the created `PurchaseTransaction`, the customer's
token balance after redemption-transfer and reward-mint, and the number of
tokens actually minted (`0` when the `reward_amount > 0` branch is not
taken, so "no mint occurs" is `minted = 0`). -/
structure PurchaseResult where
  config : LokalMintConfig
  merchant : MerchantAccount
  record : PurchaseTransaction
  customer_balance : Nat
  minted : Nat
  deriving DecidableEq, Repr

/-- `rewards.rs` `ProcessPurchase::handler` (lines 165-321), including the
`merchant_account.is_active` account constraint that Anchor checks before
the handler body.  `customer_balance` is the customer token account's
`amount` field. -/
def ProcessPurchase.handler (fiat_amount : Nat) (redeem_token_amount : Option Nat)
    (customer_balance : Nat) (m : MerchantAccount) (cfg : LokalMintConfig)
    (customer transaction_id : Nat) (now : Int) : Except CarsaError PurchaseResult :=
  if ¬ m.is_active then .error .MerchantNotActive
  else if fiat_amount = 0 then .error .InvalidPurchaseAmount
  else if MAX_PURCHASE_AMOUNT < fiat_amount then .error .PurchaseAmountTooLarge
  else
    let redeemed := redeem_token_amount.getD 0
    let used_tokens : Bool := decide (0 < redeemed)
    if used_tokens ∧ customer_balance < redeemed then .error .InsufficientBalance
    else
      match tokenValueInIdr redeemed with
      | none => .error .ArithmeticOverflow
      | some token_value_in_idr =>
        match checkedAdd64 fiat_amount token_value_in_idr with
        | none => .error .ArithmeticOverflow
        | some total_value =>
          match rewardCalculation total_value m.cashback_rate with
          | none => .error .ArithmeticOverflow
          | some reward_calc =>
            if U64_MOD ≤ reward_calc then .error .ArithmeticOverflow
            else
              let reward_amount := reward_calc
              match (if 0 < reward_amount then
                       checkedAdd64 cfg.total_supply reward_amount
                     else some cfg.total_supply) with
              | none => .error .ArithmeticOverflow
              | some new_supply =>
                match checkedAdd64 m.total_transactions 1 with
                | none => .error .ArithmeticOverflow
                | some new_tx =>
                  match checkedAdd64 m.total_volume total_value with
                  | none => .error .ArithmeticOverflow
                  | some new_volume =>
                    match checkedAdd64 m.total_rewards_distributed reward_amount with
                    | none => .error .ArithmeticOverflow
                    | some new_rewards =>
                      .ok { config := { total_supply := new_supply },
                            merchant := { m with
                              total_transactions := new_tx,
                              total_volume := new_volume,
                              total_rewards_distributed := new_rewards },
                            record := {
                              customer := customer,
                              fiat_amount := fiat_amount,
                              redeemed_token_amount := redeemed,
                              total_value := total_value,
                              reward_amount := reward_amount,
                              cashback_rate := m.cashback_rate,
                              used_tokens := used_tokens,
                              timestamp := now,
                              transaction_id := transaction_id },
                            customer_balance := customer_balance - redeemed + reward_amount,
                            minted := if 0 < reward_amount then reward_amount else 0 }

/-- `mint_tokens.rs` `MAX_MINT_AMOUNT` (10,000 tokens with 9 decimals). -/
def MAX_MINT_AMOUNT : Nat := 10000000000000

/-- `mint_tokens.rs` `MintLokalTokens::handler` (lines 125-172), projected to
its effect on `LokalMintConfig.total_supply` (the CPI mint itself goes to the
external token-transfer service). -/
def MintLokalTokens.handler (amount : Nat) (cfg : LokalMintConfig) :
    Except CarsaError LokalMintConfig :=
  if amount = 0 then .error .InvalidMintAmount
  else if MAX_MINT_AMOUNT < amount then .error .MintAmountTooLarge
  else
    match checkedAdd64 cfg.total_supply amount with
    | none => .error .ArithmeticOverflow
    | some new_supply => .ok { total_supply := new_supply }

/-- `transfers.rs` `BurnTokens::handler` (lines 303-345), projected to its
effect on `LokalMintConfig.total_supply`.  `merchant_balance` is the
merchant token account's `amount` field. -/
def BurnTokens.handler (amount merchant_balance : Nat) (cfg : LokalMintConfig) :
    Except CarsaError LokalMintConfig :=
  if amount = 0 then .error .InvalidMintAmount
  else if merchant_balance < amount then .error .InsufficientBalance
  else
    match checkedSub64 cfg.total_supply amount with
    | none => .error .ArithmeticOverflow
    | some new_supply => .ok { total_supply := new_supply }

/-- `transfers.rs` `MAX_TRANSFER_AMOUNT` (10,000 tokens with 9 decimals). -/
def MAX_TRANSFER_AMOUNT : Nat := 10000000000000

/-- `state.rs` `TokenTransfer`: the immutable audit row written by
`TransferTokens::handler`.  `memo` is the 64-byte zero-padded memo array. -/
structure TokenTransfer where
  sender : Nat
  recipient : Nat
  amount : Nat
  timestamp : Int
  transaction_id : Nat
  memo : List Nat
  deriving DecidableEq, Repr

/-- Result of a successful `TransferTokens::handler` call: the created
record plus the two token-account balances after the SPL transfer. -/
structure TransferResult where
  record : TokenTransfer
  sender_balance : Nat
  recipient_balance : Nat
  deriving DecidableEq, Repr

/-- `transfers.rs` `TransferTokens::handler` (lines 161-224), including the
`recipient_token_account.key() != sender_token_account.key()` account
constraint (checked by Anchor before the handler body).  `sender` and
`recipient` stand for the two token-account keys; `memo` is the memo's
byte list. -/
def TransferTokens.handler (sender recipient amount transaction_id : Nat)
    (memo : List Nat) (sender_balance recipient_balance : Nat) (now : Int) :
    Except CarsaError TransferResult :=
  if recipient = sender then .error .SelfTransferNotAllowed
  else if amount = 0 then .error .InvalidTransferAmount
  else if MAX_TRANSFER_AMOUNT < amount then .error .TransferAmountTooLarge
  else if 64 < memo.length then .error .InvalidMerchantName
  else if sender_balance < amount then .error .InsufficientBalance
  else
    .ok { record := {
            sender := sender,
            recipient := recipient,
            amount := amount,
            timestamp := now,
            transaction_id := transaction_id,
            memo := memo ++ List.replicate (64 - memo.length) 0 },
          sender_balance := sender_balance - amount,
          recipient_balance := recipient_balance + amount }

/-- Reward-index scale factor of `voucher_pool.rs` (10^12). -/
def SCALE : Nat := 1000000000000

/-- `state.rs` `PoolConfig`. -/
structure PoolConfig where
  min_stake_amount : Nat
  max_stake_per_user : Nat
  deposits_enabled : Bool
  withdrawals_enabled : Bool
  apy_basis_points : Nat
  deriving DecidableEq, Repr

/-- `state.rs` `PoolState` (authority/delegate/vault/mint keys omitted; they
are immutable identifiers checked by Anchor constraints). -/
structure PoolState where
  config : PoolConfig
  total_voucher_staked : Nat
  total_sol_staked : Nat
  total_yield_earned : Nat
  total_stakers : Nat
  reward_index : Nat
  created_at : Int
  last_yield_update : Int
  deriving DecidableEq, Repr

/-- `state.rs` `UserStakeRecord` (user/pool keys omitted). -/
structure UserStakeRecord where
  staked_amount : Nat
  user_reward_index : Nat
  total_yield_claimed : Nat
  staked_at : Int
  last_action_at : Int
  deriving DecidableEq, Repr

/-- `voucher_pool.rs` `InitializePool::handler` (lines 60-112). -/
def InitializePool.handler (config : PoolConfig) (now : Int) :
    Except CarsaError PoolState :=
  if config.min_stake_amount = 0 then .error .InvalidAmount
  else if config.max_stake_per_user < config.min_stake_amount then .error .InvalidAmount
  else if 10000 < config.apy_basis_points then .error .InvalidAmount
  else
    .ok { config := config,
          total_voucher_staked := 0,
          total_sol_staked := 0,
          total_yield_earned := 0,
          total_stakers := 0,
          reward_index := 0,
          created_at := now,
          last_yield_update := now }

/-- `voucher_pool.rs` `DepositVoucher::handler` (lines 173-250), including
the `deposits_enabled` account constraint.  `u` is the user's stake record
(all-zero when `init_if_needed` freshly created it). -/
def DepositVoucher.handler (amount : Nat) (now : Int) (p : PoolState)
    (u : UserStakeRecord) : Except CarsaError (PoolState × UserStakeRecord) :=
  if ¬ p.config.deposits_enabled then .error .DepositsDisabled
  else if amount = 0 then .error .InvalidAmount
  else if amount < p.config.min_stake_amount then .error .InvalidAmount
  else
    match checkedAdd64 u.staked_amount amount with
    | none => .error .Overflow
    | some new_user_total =>
      if p.config.max_stake_per_user < new_user_total then .error .ExceedsMaxStake
      else
        let first_stake := u.staked_amount = 0
        let u1 := if first_stake then
            { u with user_reward_index := p.reward_index,
                     total_yield_claimed := 0,
                     staked_at := now }
          else u
        match (if first_stake then checkedAdd64 p.total_stakers 1
               else some p.total_stakers) with
        | none => .error .Overflow
        | some new_stakers =>
          match checkedAdd64 p.total_voucher_staked amount with
          | none => .error .Overflow
          | some new_pool_total =>
            .ok ({ p with total_stakers := new_stakers,
                          total_voucher_staked := new_pool_total },
                 { u1 with staked_amount := new_user_total,
                           last_action_at := now })

/-- `voucher_pool.rs` `RecordYield::handler` (lines 274-324). -/
def RecordYield.handler (sol_amount : Nat) (now : Int) (p : PoolState) :
    Except CarsaError PoolState :=
  if sol_amount = 0 then .error .InvalidAmount
  else
    match checkedAdd64 p.total_sol_staked sol_amount with
    | none => .error .Overflow
    | some new_sol =>
      match checkedAdd64 p.total_yield_earned sol_amount with
      | none => .error .Overflow
      | some new_yield =>
        if 0 < p.total_voucher_staked then
          match checkedMul128 sol_amount SCALE with
          | none => .error .Overflow
          | some scaled =>
            match checkedDiv128 scaled p.total_voucher_staked with
            | none => .error .DivisionByZero
            | some yield_per_token =>
              match checkedAdd128 p.reward_index yield_per_token with
              | none => .error .Overflow
              | some new_index =>
                .ok { p with total_sol_staked := new_sol,
                             total_yield_earned := new_yield,
                             reward_index := new_index,
                             last_yield_update := now }
        else
          .ok { p with total_sol_staked := new_sol,
                       total_yield_earned := new_yield,
                       last_yield_update := now }

/-- Result of a successful `RedeemVoucher::handler` call. -/
structure RedeemResult where
  pool : PoolState
  user : UserStakeRecord
  claimable_yield : Nat
  deriving DecidableEq, Repr

/-- `voucher_pool.rs` `RedeemVoucher::handler` (lines 383-469), including
the `withdrawals_enabled` account constraint.  The Rust source narrows the
u128 quotient with a plain `as u64` cast, which wraps: that cast is the
`% U64_MOD` below. -/
def RedeemVoucher.handler (amount : Nat) (now : Int) (p : PoolState)
    (u : UserStakeRecord) : Except CarsaError RedeemResult :=
  if ¬ p.config.withdrawals_enabled then .error .WithdrawalsDisabled
  else if amount = 0 then .error .InvalidAmount
  else if u.staked_amount < amount then .error .InsufficientBalance
  else
    match checkedSub128 p.reward_index u.user_reward_index with
    | none => .error .Overflow
    | some reward_index_diff =>
      match checkedMul128 u.staked_amount reward_index_diff with
      | none => .error .Overflow
      | some raw_yield =>
        match checkedDiv128 raw_yield SCALE with
        | none => .error .DivisionByZero
        | some quotient =>
          let claimable_yield := quotient % U64_MOD
          match checkedSub64 p.total_voucher_staked amount with
          | none => .error .Overflow
          | some new_pool_total =>
            match checkedSub64 u.staked_amount amount with
            | none => .error .Overflow
            | some new_staked =>
              match checkedAdd64 u.total_yield_claimed claimable_yield with
              | none => .error .Overflow
              | some new_claimed =>
                match (if new_staked = 0 then checkedSub64 p.total_stakers 1
                       else some p.total_stakers) with
                | none => .error .Overflow
                | some new_stakers =>
                  .ok { pool := { p with
                          total_voucher_staked := new_pool_total,
                          total_stakers := new_stakers },
                        user := { u with
                          staked_amount := new_staked,
                          user_reward_index := p.reward_index,
                          total_yield_claimed := new_claimed,
                          last_action_at := now },
                        claimable_yield := claimable_yield }

/-- `voucher_pool.rs` `UpdatePoolConfig::handler` (lines 493-527). -/
def UpdatePoolConfig.handler (new_config : PoolConfig) (p : PoolState) :
    Except CarsaError PoolState :=
  if new_config.min_stake_amount = 0 then .error .InvalidAmount
  else if new_config.max_stake_per_user < new_config.min_stake_amount then .error .InvalidAmount
  else if 10000 < new_config.apy_basis_points then .error .InvalidAmount
  else .ok { p with config := new_config }

/-- One supply-affecting operation, carrying the per-call environment it
reads (balances and merchant state come from accounts outside
`LokalMintConfig`, so they travel with the operation). -/
inductive MintOp where
  | purchase (fiat_amount : Nat) (redeem_token_amount : Option Nat)
      (customer_balance : Nat) (m : MerchantAccount)
  | mintTokens (amount : Nat)
  | burn (amount merchant_balance : Nat)
  deriving Repr

/-- Apply one `MintOp` to the mint config, returning the new config and the
amounts actually minted and burned.  A failed operation mutates nothing and
mints/burns nothing (Solana transactions are all-or-nothing, spec section 5). -/
def applyMintOp (op : MintOp) (cfg : LokalMintConfig) : LokalMintConfig × Nat × Nat :=
  match op with
  | .purchase fiat redeem bal m =>
    match ProcessPurchase.handler fiat redeem bal m cfg 0 0 0 with
    | .ok r => (r.config, r.minted, 0)
    | .error _ => (cfg, 0, 0)
  | .mintTokens amount =>
    match MintLokalTokens.handler amount cfg with
    | .ok c => (c, amount, 0)
    | .error _ => (cfg, 0, 0)
  | .burn amount bal =>
    match BurnTokens.handler amount bal cfg with
    | .ok c => (c, 0, amount)
    | .error _ => (cfg, 0, 0)

/-- Run a sequence of supply-affecting operations, accumulating the total
amounts minted and burned by the successful ones. -/
def runMintOps : List MintOp → LokalMintConfig → LokalMintConfig × Nat × Nat
  | [], cfg => (cfg, 0, 0)
  | op :: rest, cfg =>
    let step := applyMintOp op cfg
    let tail := runMintOps rest step.1
    (tail.1, step.2.1 + tail.2.1, step.2.2 + tail.2.2)

/-- The ledger-store view needed for replay protection: the set of
`(customer, transaction_id)` keys for which a `PurchaseTransaction` account
already exists, plus the state a purchase mutates. -/
structure PurchaseWorld where
  existing_records : List (Nat × Nat)
  config : LokalMintConfig
  merchant : MerchantAccount
  customer_balance : Nat
  deriving DecidableEq, Repr

/-- Failure of a full `process_purchase` transaction: either Anchor's
account-creation step rejects a duplicate `(customer, transaction_id)` PDA
(`rewards.rs` lines 81-89: `init` on seeds
`[TRANSACTION_SEED, customer, transaction_id]` fails if the account
exists), or the handler itself errors. -/
inductive PurchaseTxError where
  | duplicateRecord
  | program (e : CarsaError)
  deriving DecidableEq, Repr

/-- A full `process_purchase` transaction against the ledger store: create
the `PurchaseTransaction` account keyed by `(customer, transaction_id)`
(hard failure on a duplicate key), then run the handler.  An error leaves
the world untouched (the returned value carries no state), matching
Solana's all-or-nothing transaction semantics. -/
def processPurchaseTx (customer transaction_id fiat_amount : Nat)
    (redeem_token_amount : Option Nat) (now : Int) (w : PurchaseWorld) :
    Except PurchaseTxError PurchaseWorld :=
  if (customer, transaction_id) ∈ w.existing_records then .error .duplicateRecord
  else
    match ProcessPurchase.handler fiat_amount redeem_token_amount
        w.customer_balance w.merchant w.config customer transaction_id now with
    | .error e => .error (.program e)
    | .ok r =>
      .ok { existing_records := (customer, transaction_id) :: w.existing_records,
            config := r.config,
            merchant := r.merchant,
            customer_balance := r.customer_balance }

/-- `processPurchaseTx` with explicit rollback: a failed transaction leaves
the world exactly as it was. -/
def applyPurchaseTx (customer transaction_id fiat_amount : Nat)
    (redeem_token_amount : Option Nat) (now : Int) (w : PurchaseWorld) : PurchaseWorld :=
  match processPurchaseTx customer transaction_id fiat_amount redeem_token_amount now w with
  | .ok w2 => w2
  | .error _ => w

/-- Argument types appearing in the program's instruction signatures. -/
inductive ArgTy where
  | u64
  | u16
  | optU64
  | optU16
  | optBool
  | bytes32
  | str
  deriving DecidableEq, Repr

/-- The caller-facing dispatch of `lib.rs` (`#[program] pub mod carsa`,
lines 17-165): each exposed instruction with the data arguments it takes,
transcribed entry by entry. -/
def carsaDispatch : List (String × List ArgTy) :=
  [("initialize_lokal_mint", []),
   ("mint_lokal_tokens", [.u64]),
   ("register_merchant", [.str, .str, .u16]),
   ("process_purchase", [.u64, .bytes32]),
   ("update_merchant", [.optU16, .optBool]),
   ("transfer_tokens", [.u64, .bytes32, .str]),
   ("redeem_tokens", [.u64, .u64, .u16, .bytes32]),
   ("burn_tokens", [.u64]),
   ("initialize", [])]

/-- The data arguments of `ProcessPurchase::handler` itself
(`rewards.rs` lines 167-172): `fiat_amount: u64`,
`redeem_token_amount: Option<u64>`, `transaction_id: [u8; 32]`. -/
def processPurchaseHandlerArgs : List ArgTy := [.u64, .optU64, .bytes32]

/-- The eleven caller-facing operations enumerated in spec section 4
(named there: register/update merchant, process purchase, transfer,
redeem, burn, initialize/update pool, deposit, record-yield,
redeem-voucher). -/
def specSurfaceOps : List String :=
  ["register_merchant", "update_merchant", "process_purchase",
   "transfer_tokens", "redeem_tokens", "burn_tokens",
   "initialize_pool", "update_pool_config", "deposit_voucher",
   "record_yield", "redeem_voucher"]

theorem tokenValueInIdr_eq_some {redeemed c : Nat} :
    tokenValueInIdr redeemed = some c ↔
      redeemed / TOKEN_UNIT * TOKEN_TO_FIAT_RATE < U64_MOD ∧
      c = redeemed / TOKEN_UNIT * TOKEN_TO_FIAT_RATE := by
  simp only [tokenValueInIdr, Option.bind_eq_some, checkedDiv64_eq_some,
    checkedMul64_eq_some]
  constructor
  · rintro ⟨a, ⟨h1, rfl⟩, h2, rfl⟩
    exact ⟨h2, rfl⟩
  · rintro ⟨h1, rfl⟩
    exact ⟨_, ⟨by norm_num [TOKEN_UNIT], rfl⟩, h1, rfl⟩

theorem rewardCalculation_eq_some {tv rate c : Nat} :
    rewardCalculation tv rate = some c ↔
      tv * rate < U128_MOD ∧ tv * rate * TOKEN_UNIT < U128_MOD ∧
      c = tv * rate * TOKEN_UNIT / 10000 / 1000 := by
  simp only [rewardCalculation, Option.bind_eq_some, checkedMul128_eq_some,
    checkedDiv128_eq_some]
  constructor
  · rintro ⟨a, ⟨h1, rfl⟩, b, ⟨h2, rfl⟩, d, ⟨h3, rfl⟩, h4, rfl⟩
    exact ⟨h1, h2, rfl⟩
  · rintro ⟨h1, h2, rfl⟩
    exact ⟨_, ⟨h1, rfl⟩, _, ⟨h2, rfl⟩, _, ⟨by norm_num, rfl⟩, by norm_num, rfl⟩

/-- For any in-range operands the 128-bit intermediate never overflows and
the two exact divisions collapse: the computed reward is
`total_value * rate * 100` base units. -/
theorem rewardCalculation_eq {tv rate : Nat} (htv : tv < U64_MOD)
    (hrate : rate ≤ 10000) :
    rewardCalculation tv rate = some (tv * rate * 100) := by
  have hle : tv * rate ≤ U64_MOD * 10000 := Nat.mul_le_mul htv.le hrate
  have h1 : tv * rate < U128_MOD := by
    have : U64_MOD * 10000 < U128_MOD := by norm_num [U64_MOD, U128_MOD]
    omega
  have h2 : tv * rate * TOKEN_UNIT < U128_MOD := by
    have hle2 : tv * rate * TOKEN_UNIT ≤ U64_MOD * 10000 * TOKEN_UNIT :=
      Nat.mul_le_mul hle le_rfl
    have : U64_MOD * 10000 * TOKEN_UNIT < U128_MOD := by
      norm_num [U64_MOD, U128_MOD, TOKEN_UNIT]
    omega
  rw [rewardCalculation_eq_some]
  refine ⟨h1, h2, ?_⟩
  simp only [TOKEN_UNIT]
  omega

/-- Success characterization of `ProcessPurchase::handler`: relations
between the inputs and every field of the result that the claims use. -/
theorem processPurchase_ok {fiat_amount : Nat}
    {redeem_token_amount : Option Nat} {customer_balance : Nat}
    {m : MerchantAccount} {cfg : LokalMintConfig}
    {customer transaction_id : Nat} {now : Int} {r : PurchaseResult}
    (h : ProcessPurchase.handler fiat_amount redeem_token_amount
          customer_balance m cfg customer transaction_id now = .ok r) :
    r.config.total_supply = cfg.total_supply + r.record.reward_amount ∧
    r.minted = r.record.reward_amount ∧
    r.record.total_value =
      fiat_amount + redeem_token_amount.getD 0 / TOKEN_UNIT * TOKEN_TO_FIAT_RATE ∧
    r.record.reward_amount =
      r.record.total_value * m.cashback_rate * TOKEN_UNIT / 10000 / 1000 ∧
    r.record.reward_amount < U64_MOD ∧
    r.record.cashback_rate = m.cashback_rate ∧
    r.record.fiat_amount = fiat_amount ∧
    r.record.customer = customer ∧
    r.record.transaction_id = transaction_id := by
  simp only [ProcessPurchase.handler] at h
  split at h
  · exact Except.noConfusion h
  split at h
  · exact Except.noConfusion h
  split at h
  · exact Except.noConfusion h
  split at h
  · exact Except.noConfusion h
  split at h
  · exact Except.noConfusion h
  rename_i token_value htoken
  split at h
  · exact Except.noConfusion h
  rename_i total_value htotal
  split at h
  · exact Except.noConfusion h
  rename_i reward_calc hreward
  split at h
  · exact Except.noConfusion h
  rename_i hnarrow
  split at h
  · exact Except.noConfusion h
  rename_i new_supply hsupply
  split at h
  · exact Except.noConfusion h
  rename_i new_tx htx
  split at h
  · exact Except.noConfusion h
  rename_i new_volume hvolume
  split at h
  · exact Except.noConfusion h
  rename_i new_rewards hrewards
  injection h with h
  subst h
  rw [tokenValueInIdr_eq_some] at htoken
  rw [checkedAdd64_eq_some] at htotal
  rw [rewardCalculation_eq_some] at hreward
  obtain ⟨-, rfl⟩ := htoken
  obtain ⟨-, rfl⟩ := htotal
  obtain ⟨-, -, rfl⟩ := hreward
  dsimp only
  refine ⟨?_, ?_, rfl, rfl, by omega, rfl, rfl, rfl, rfl⟩
  · split at hsupply
    · rw [checkedAdd64_eq_some] at hsupply
      omega
    · rename_i hzero
      injection hsupply with hs
      omega
  · split <;> omega

theorem mintLokalTokens_ok {amount : Nat} {cfg c : LokalMintConfig}
    (h : MintLokalTokens.handler amount cfg = .ok c) :
    c.total_supply = cfg.total_supply + amount := by
  simp only [MintLokalTokens.handler] at h
  split at h
  · exact Except.noConfusion h
  split at h
  · exact Except.noConfusion h
  split at h
  · exact Except.noConfusion h
  rename_i new_supply hs
  injection h with h
  subst h
  rw [checkedAdd64_eq_some] at hs
  dsimp only
  omega

theorem burnTokens_ok {amount balance : Nat} {cfg c : LokalMintConfig}
    (h : BurnTokens.handler amount balance cfg = .ok c) :
    amount ≤ cfg.total_supply ∧ c.total_supply = cfg.total_supply - amount := by
  simp only [BurnTokens.handler] at h
  split at h
  · exact Except.noConfusion h
  split at h
  · exact Except.noConfusion h
  split at h
  · exact Except.noConfusion h
  rename_i new_supply hs
  injection h with h
  subst h
  rw [checkedSub64_eq_some] at hs
  dsimp only
  omega

/-- One step of the supply ledger: burned so far never exceeds minted so
far, and the configured total supply is exactly their difference. -/
theorem applyMintOp_supply (op : MintOp) (cfg : LokalMintConfig) :
    (applyMintOp op cfg).2.2 ≤ cfg.total_supply + (applyMintOp op cfg).2.1 ∧
    (applyMintOp op cfg).1.total_supply + (applyMintOp op cfg).2.2 =
      cfg.total_supply + (applyMintOp op cfg).2.1 := by
  cases op with
  | purchase fiat redeem bal m =>
    dsimp only [applyMintOp]
    split
    · rename_i r hr
      obtain ⟨h1, h2, -, -, -, -, -, -, -⟩ := processPurchase_ok hr
      dsimp only
      omega
    · dsimp only
      omega
  | mintTokens amount =>
    dsimp only [applyMintOp]
    split
    · rename_i c hc
      have h1 := mintLokalTokens_ok hc
      dsimp only
      omega
    · dsimp only
      omega
  | burn amount bal =>
    dsimp only [applyMintOp]
    split
    · rename_i c hc
      obtain ⟨h1, h2⟩ := burnTokens_ok hc
      dsimp only
      omega
    · dsimp only
      omega

theorem runMintOps_supply (ops : List MintOp) (cfg : LokalMintConfig) :
    (runMintOps ops cfg).2.2 ≤ cfg.total_supply + (runMintOps ops cfg).2.1 ∧
    (runMintOps ops cfg).1.total_supply + (runMintOps ops cfg).2.2 =
      cfg.total_supply + (runMintOps ops cfg).2.1 := by
  induction ops generalizing cfg with
  | nil => simp [runMintOps]
  | cons op rest ih =>
    dsimp only [runMintOps]
    have hop := applyMintOp_supply op cfg
    have htail := ih (applyMintOp op cfg).1
    omega

/-- C1 (confirmed): starting from an initialized mint config
(`total_supply = 0`), after any sequence of `process_purchase`,
`mint_lokal_tokens` and `burn_tokens` operations — each updating
`total_supply` by checked addition/subtraction and leaving all state
untouched when it fails — `MintConfig.total_supply` equals the sum of all
amounts minted minus the sum of all amounts burned, exactly. -/
theorem claim_C1_total_supply_conservation (ops : List MintOp)
    (cfg : LokalMintConfig) (minted burned : Nat)
    (h : runMintOps ops { total_supply := 0 } = (cfg, minted, burned)) :
    burned ≤ minted ∧ cfg.total_supply = minted - burned := by
  have := runMintOps_supply ops { total_supply := 0 }
  rw [h] at this
  dsimp only at this
  omega

theorem claim_C1_witness :
    (200 : Nat) ≤ 1000000500 ∧ (1000000300 : Nat) = 1000000500 - 200 :=
  claim_C1_total_supply_conservation
    [MintOp.mintTokens 500, MintOp.burn 200 1000,
     MintOp.purchase 1000 none 0
       { cashback_rate := 10000, is_active := true, total_transactions := 0,
         total_rewards_distributed := 0, total_volume := 0 }]
    { total_supply := 1000000300 } 1000000500 200 (by decide)

theorem initializePool_ok {config : PoolConfig} {now : Int} {p : PoolState}
    (h : InitializePool.handler config now = .ok p) :
    p = { config := config, total_voucher_staked := 0, total_sol_staked := 0,
          total_yield_earned := 0, total_stakers := 0, reward_index := 0,
          created_at := now, last_yield_update := now } := by
  simp only [InitializePool.handler] at h
  split at h
  · exact Except.noConfusion h
  split at h
  · exact Except.noConfusion h
  split at h
  · exact Except.noConfusion h
  injection h with h
  exact h.symm

theorem updatePoolConfig_ok {new_config : PoolConfig} {p p2 : PoolState}
    (h : UpdatePoolConfig.handler new_config p = .ok p2) :
    p2 = { p with config := new_config } := by
  simp only [UpdatePoolConfig.handler] at h
  split at h
  · exact Except.noConfusion h
  split at h
  · exact Except.noConfusion h
  split at h
  · exact Except.noConfusion h
  injection h with h
  exact h.symm

/-- Success characterization of `DepositVoucher::handler`. -/
theorem depositVoucher_ok {amount : Nat} {now : Int} {p : PoolState}
    {u : UserStakeRecord} {p2 : PoolState} {u2 : UserStakeRecord}
    (h : DepositVoucher.handler amount now p u = .ok (p2, u2)) :
    p2.reward_index = p.reward_index ∧
    p2.config = p.config ∧
    p2.total_voucher_staked = p.total_voucher_staked + amount ∧
    p2.total_sol_staked = p.total_sol_staked ∧
    p2.total_yield_earned = p.total_yield_earned ∧
    u2.staked_amount = u.staked_amount + amount ∧
    u2.last_action_at = now ∧
    (u.staked_amount = 0 →
      u2.user_reward_index = p.reward_index ∧
      u2.total_yield_claimed = 0 ∧
      p2.total_stakers = p.total_stakers + 1) ∧
    (0 < u.staked_amount →
      u2.user_reward_index = u.user_reward_index ∧
      u2.total_yield_claimed = u.total_yield_claimed ∧
      p2.total_stakers = p.total_stakers) := by
  simp only [DepositVoucher.handler] at h
  split at h
  · exact Except.noConfusion h
  split at h
  · exact Except.noConfusion h
  split at h
  · exact Except.noConfusion h
  split at h
  · exact Except.noConfusion h
  rename_i new_user_total htotal
  split at h
  · exact Except.noConfusion h
  split at h
  · exact Except.noConfusion h
  rename_i new_stakers hstakers
  split at h
  · exact Except.noConfusion h
  rename_i new_pool_total hpool
  injection h with h
  rw [Prod.ext_iff] at h
  obtain ⟨hp, hu⟩ := h
  subst hp
  subst hu
  rw [checkedAdd64_eq_some] at htotal hpool
  dsimp only
  by_cases hfirst : u.staked_amount = 0
  · rw [if_pos hfirst] at hstakers
    rw [checkedAdd64_eq_some] at hstakers
    refine ⟨rfl, rfl, by omega, rfl, rfl, by omega, rfl, fun _ => ?_,
      fun hpos => absurd hpos (by omega)⟩
    rw [if_pos hfirst]
    exact ⟨rfl, rfl, by omega⟩
  · rw [if_neg hfirst] at hstakers
    injection hstakers with hstakers
    refine ⟨rfl, rfl, by omega, rfl, rfl, by omega, rfl,
      fun hz => absurd hz hfirst, fun _ => ?_⟩
    rw [if_neg hfirst]
    exact ⟨rfl, rfl, by omega⟩

/-- Success characterization of `RecordYield::handler`. -/
theorem recordYield_ok {sol_amount : Nat} {now : Int} {p p2 : PoolState}
    (h : RecordYield.handler sol_amount now p = .ok p2) :
    p2.total_sol_staked = p.total_sol_staked + sol_amount ∧
    p2.total_yield_earned = p.total_yield_earned + sol_amount ∧
    p2.last_yield_update = now ∧
    p2.config = p.config ∧
    p2.total_voucher_staked = p.total_voucher_staked ∧
    p2.total_stakers = p.total_stakers ∧
    p2.created_at = p.created_at ∧
    (p.total_voucher_staked = 0 → p2.reward_index = p.reward_index) ∧
    (0 < p.total_voucher_staked →
      p2.reward_index = p.reward_index + sol_amount * SCALE / p.total_voucher_staked) ∧
    0 < sol_amount := by
  simp only [RecordYield.handler] at h
  split at h
  · exact Except.noConfusion h
  rename_i hsol
  split at h
  · exact Except.noConfusion h
  rename_i new_sol hsolstep
  split at h
  · exact Except.noConfusion h
  rename_i new_yield hyield
  split at h
  · rename_i hstaked
    split at h
    · exact Except.noConfusion h
    rename_i scaled hscaled
    split at h
    · exact Except.noConfusion h
    rename_i ypt hypt
    split at h
    · exact Except.noConfusion h
    rename_i new_index hidx
    injection h with h
    subst h
    rw [checkedAdd64_eq_some] at hsolstep hyield
    rw [checkedMul128_eq_some] at hscaled
    rw [checkedDiv128_eq_some] at hypt
    rw [checkedAdd128_eq_some] at hidx
    obtain ⟨-, rfl⟩ := hscaled
    obtain ⟨-, rfl⟩ := hypt
    obtain ⟨-, rfl⟩ := hidx
    dsimp only
    exact ⟨by omega, by omega, rfl, rfl, rfl, rfl, rfl,
      fun hz => absurd hstaked (by omega), fun _ => rfl, by omega⟩
  · rename_i hstaked
    injection h with h
    subst h
    rw [checkedAdd64_eq_some] at hsolstep hyield
    dsimp only
    exact ⟨by omega, by omega, rfl, rfl, rfl, rfl, rfl, fun _ => rfl,
      fun hpos => absurd hpos (by omega), by omega⟩

/-- Success characterization of `RedeemVoucher::handler`. -/
theorem redeemVoucher_ok {amount : Nat} {now : Int} {p : PoolState}
    {u : UserStakeRecord} {res : RedeemResult}
    (h : RedeemVoucher.handler amount now p u = .ok res) :
    u.user_reward_index ≤ p.reward_index ∧
    res.claimable_yield =
      u.staked_amount * (p.reward_index - u.user_reward_index) / SCALE % U64_MOD ∧
    amount ≤ u.staked_amount ∧
    amount ≤ p.total_voucher_staked ∧
    0 < amount ∧
    res.pool.total_voucher_staked = p.total_voucher_staked - amount ∧
    res.user.staked_amount = u.staked_amount - amount ∧
    res.user.user_reward_index = p.reward_index ∧
    res.user.total_yield_claimed = u.total_yield_claimed + res.claimable_yield ∧
    res.user.last_action_at = now ∧
    res.pool.reward_index = p.reward_index ∧
    res.pool.config = p.config ∧
    res.pool.total_sol_staked = p.total_sol_staked ∧
    res.pool.total_yield_earned = p.total_yield_earned ∧
    res.pool.created_at = p.created_at ∧
    res.pool.last_yield_update = p.last_yield_update ∧
    (u.staked_amount - amount = 0 →
      1 ≤ p.total_stakers ∧ res.pool.total_stakers = p.total_stakers - 1) ∧
    (0 < u.staked_amount - amount → res.pool.total_stakers = p.total_stakers) := by
  simp only [RedeemVoucher.handler] at h
  split at h
  · exact Except.noConfusion h
  rename_i hwdraw
  split at h
  · exact Except.noConfusion h
  rename_i hamt
  split at h
  · exact Except.noConfusion h
  rename_i hbal
  split at h
  · exact Except.noConfusion h
  rename_i diff hdiff
  split at h
  · exact Except.noConfusion h
  rename_i raw hraw
  split at h
  · exact Except.noConfusion h
  rename_i quot hquot
  split at h
  · exact Except.noConfusion h
  rename_i new_pool_total hpool
  split at h
  · exact Except.noConfusion h
  rename_i new_staked hstaked
  split at h
  · exact Except.noConfusion h
  rename_i new_claimed hclaimed
  split at h
  · exact Except.noConfusion h
  rename_i new_stakers hstakers
  injection h with h
  subst h
  rw [checkedSub128_eq_some] at hdiff
  rw [checkedMul128_eq_some] at hraw
  rw [checkedDiv128_eq_some] at hquot
  rw [checkedSub64_eq_some] at hpool hstaked
  rw [checkedAdd64_eq_some] at hclaimed
  obtain ⟨hle, rfl⟩ := hdiff
  obtain ⟨hbound, rfl⟩ := hraw
  obtain ⟨-, rfl⟩ := hquot
  obtain ⟨hple, rfl⟩ := hpool
  obtain ⟨hsle, rfl⟩ := hstaked
  obtain ⟨hcb, rfl⟩ := hclaimed
  dsimp only
  refine ⟨hle, rfl, hsle, hple, by omega, rfl, rfl, rfl, rfl, rfl, rfl, rfl,
    rfl, rfl, rfl, rfl, ?_, ?_⟩
  · intro hz
    rw [if_pos hz] at hstakers
    rw [checkedSub64_eq_some] at hstakers
    obtain ⟨h1, rfl⟩ := hstakers
    exact ⟨h1, rfl⟩
  · intro hpos
    rw [if_neg (by omega)] at hstakers
    injection hstakers with hstakers
    exact hstakers.symm

/-- A merchant with 100% cashback (10000 bps), used in boundary checks. -/
def merchantFullRate : MerchantAccount :=
  { cashback_rate := 10000, is_active := true, total_transactions := 0,
    total_rewards_distributed := 0, total_volume := 0 }

/-- A merchant with 0% cashback. -/
def merchantZeroRate : MerchantAccount :=
  { merchantFullRate with cashback_rate := 0 }

/-- C2 (confirmed): `process_purchase` computes the reward as
`floor(total_value * cashback_rate_bps / 10000 / 1000)` scaled to 9-decimal
base units (the scaling happens inside the 128-bit intermediate, where both
divisions are exact, so the value is `total_value * rate * 100`); the
intermediate never overflows for in-range operands; narrowing back to u64
fails with `ArithmeticOverflow`; with rate 10000 and `fiat_amount = 1000`
and no redemption the reward is exactly `10^9` base units (one whole
token); with rate 0 the reward is 0 and no mint occurs. -/
theorem claim_C2_reward_formula :
    (∀ tv rate : Nat, tv < U64_MOD → rate ≤ 10000 →
      rewardCalculation tv rate = some (tv * rate * 100)) ∧
    (∀ (fiat : Nat) (redeem : Option Nat) (bal : Nat) (m : MerchantAccount)
       (cfg : LokalMintConfig) (cu tx : Nat) (now : Int) (r : PurchaseResult),
      ProcessPurchase.handler fiat redeem bal m cfg cu tx now = .ok r →
      r.record.reward_amount = r.record.total_value * m.cashback_rate * 100 ∧
      r.record.reward_amount < U64_MOD) ∧
    (ProcessPurchase.handler 1000000000 (some 18446744073000000000)
      18446744073000000000 merchantFullRate { total_supply := 0 } 0 0 0 =
      .error .ArithmeticOverflow) ∧
    ((ProcessPurchase.handler 1000 none 0 merchantFullRate
        { total_supply := 0 } 0 0 0).map
      (fun r => (r.record.reward_amount, r.minted)) = .ok (1000000000, 1000000000)) ∧
    ((ProcessPurchase.handler 1000 none 0 merchantZeroRate
        { total_supply := 0 } 0 0 0).map
      (fun r => (r.record.reward_amount, r.minted)) = .ok (0, 0)) := by
  refine ⟨?_, ?_, by rfl, by rfl, by rfl⟩
  · intro tv rate htv hrate
    exact rewardCalculation_eq htv hrate
  · intro fiat redeem bal m cfg cu tx now r h
    obtain ⟨-, -, -, h4, h5, -, -, -, -⟩ := processPurchase_ok h
    refine ⟨?_, h5⟩
    rw [h4]
    simp only [TOKEN_UNIT]
    omega

theorem claim_C2_witness :
    rewardCalculation 12345 250 = some (12345 * 250 * 100) :=
  claim_C2_reward_formula.1 12345 250 (by norm_num [U64_MOD]) (by norm_num)

/-- A pool state whose accumulated reward index makes the redemption
quotient exactly 2^64 for a 1-unit staker: `reward_index = SCALE * 2^64`. -/
def poolOverflowDemo : PoolState :=
  { config := {
      min_stake_amount := 1,
      max_stake_per_user := 1000000000000,
      deposits_enabled := true,
      withdrawals_enabled := true,
      apy_basis_points := 0 },
    total_voucher_staked := 1,
    total_sol_staked := 0,
    total_yield_earned := 0,
    total_stakers := 1,
    reward_index := 18446744073709551616000000000000,
    created_at := 0,
    last_yield_update := 0 }

/-- A user who staked 1 base unit before any yield was recorded. -/
def userOverflowDemo : UserStakeRecord :=
  { staked_amount := 1, user_reward_index := 0, total_yield_claimed := 0,
    staked_at := 0, last_action_at := 0 }

/-- C3 (code bug): at `poolOverflowDemo`/`userOverflowDemo` — withdrawals
enabled, `amount = 1 > 0`, `amount ≤ staked_amount` — the exact value
`staked_amount * (pool.reward_index − user.user_reward_index) / 10^12` is
`2^64`, but `RedeemVoucher::handler` narrows the u128 quotient with a bare
`as u64` cast, silently wrapping it to `0`, and records `0` into
`total_yield_claimed`; every other arithmetic step in the program uses
checked operations (`rewards.rs` narrows the analogous quotient with
`u64::try_from` and fails with `ArithmeticOverflow`), so the claimed exact
computation is the intent and the wrapping cast is the slip. -/
theorem claim_C3_truncation_bug :
    poolOverflowDemo.config.withdrawals_enabled = true ∧
    userOverflowDemo.staked_amount *
        (poolOverflowDemo.reward_index - userOverflowDemo.user_reward_index) /
        SCALE = U64_MOD ∧
    (RedeemVoucher.handler 1 0 poolOverflowDemo userOverflowDemo).map
      (fun res => (res.claimable_yield, res.user.total_yield_claimed)) =
      .ok (0, 0) :=
  ⟨rfl, by decide, rfl⟩

/-- C4 (confirmed): a user whose first deposit (`staked_amount = 0`
beforehand) happens after a `RecordYield` event has `user_reward_index`
initialized to the pool's current `reward_index` (not zero), so a
subsequent `RedeemVoucher` with no intervening `RecordYield` computes
`claimable_yield = 0`: no yield accrues from events preceding the deposit. -/
theorem claim_C4_late_joiner_isolation
    {p0 p : PoolState} {sol : Nat} {n0 : Int}
    (_hyield : RecordYield.handler sol n0 p0 = .ok p)
    {u : UserStakeRecord} (hfresh : u.staked_amount = 0)
    {amount : Nat} {n1 : Int} {p2 : PoolState} {u2 : UserStakeRecord}
    (hdep : DepositVoucher.handler amount n1 p u = .ok (p2, u2)) :
    u2.user_reward_index = p.reward_index ∧
    ∀ {amt2 : Nat} {n2 : Int} {res : RedeemResult},
      RedeemVoucher.handler amt2 n2 p2 u2 = .ok res →
      res.claimable_yield = 0 := by
  obtain ⟨hri, -, -, -, -, -, -, hfirstcase, -⟩ := depositVoucher_ok hdep
  obtain ⟨huri, -, -⟩ := hfirstcase hfresh
  refine ⟨huri, ?_⟩
  intro amt2 n2 res hred
  obtain ⟨-, hcy, -⟩ := redeemVoucher_ok hred
  rw [hcy, huri, hri]
  simp

/-- A pool with 4 base units staked by one earlier staker and no yield yet. -/
def poolFourStaked : PoolState :=
  { config := {
      min_stake_amount := 1,
      max_stake_per_user := 1000000,
      deposits_enabled := true,
      withdrawals_enabled := true,
      apy_basis_points := 0 },
    total_voucher_staked := 4,
    total_sol_staked := 0,
    total_yield_earned := 0,
    total_stakers := 1,
    reward_index := 0,
    created_at := 0,
    last_yield_update := 0 }

/-- `poolFourStaked` after `RecordYield(8)`: the index rose by
`8 * 10^12 / 4 = 2 * 10^12`. -/
def poolAfterYield : PoolState :=
  { poolFourStaked with
    total_sol_staked := 8,
    total_yield_earned := 8,
    reward_index := 2000000000000 }

/-- A stake record that has never been used (fresh `init_if_needed`). -/
def zeroStake : UserStakeRecord :=
  { staked_amount := 0, user_reward_index := 0, total_yield_claimed := 0,
    staked_at := 0, last_action_at := 0 }

/-- `poolAfterYield` after the late joiner deposits 5. -/
def poolAfterLateDeposit : PoolState :=
  { poolAfterYield with total_voucher_staked := 9, total_stakers := 2 }

/-- The late joiner's record after depositing 5: snapshot is the pool's
current index. -/
def lateJoinerStake : UserStakeRecord :=
  { staked_amount := 5, user_reward_index := 2000000000000,
    total_yield_claimed := 0, staked_at := 0, last_action_at := 0 }

/-- Result of the late joiner redeeming their full 5 right away. -/
def lateJoinerRedeem : RedeemResult :=
  { pool := {
      poolAfterLateDeposit with
      total_voucher_staked := 4,
      total_stakers := 1 },
    user := { lateJoinerStake with staked_amount := 0 },
    claimable_yield := 0 }

theorem claim_C4_witness : lateJoinerRedeem.claimable_yield = 0 :=
  (claim_C4_late_joiner_isolation
    (rfl : RecordYield.handler 8 0 poolFourStaked = .ok poolAfterYield)
    (rfl : zeroStake.staked_amount = 0)
    (rfl : DepositVoucher.handler 5 0 poolAfterYield zeroStake =
      .ok (poolAfterLateDeposit, lateJoinerStake))).2
    (rfl : RedeemVoucher.handler 5 0 poolAfterLateDeposit lateJoinerStake =
      .ok lateJoinerRedeem)

/-- C5 (confirmed): a successful `process_purchase` creates the
`PurchaseRecord` keyed by `(customer, transaction_id)` exactly once, and a
second submission with the same key fails on the duplicate key — whatever
its other arguments — mutating nothing: the world after the failed replay is
exactly the world before it (no transfer, no mint, no counter change). -/
theorem claim_C5_replay_protection
    {customer transaction_id fiat : Nat} {redeem : Option Nat} {now : Int}
    {w w2 : PurchaseWorld}
    (h : processPurchaseTx customer transaction_id fiat redeem now w = .ok w2) :
    w2.existing_records = (customer, transaction_id) :: w.existing_records ∧
    ∀ (fiat2 : Nat) (redeem2 : Option Nat) (now2 : Int),
      processPurchaseTx customer transaction_id fiat2 redeem2 now2 w2 =
        .error .duplicateRecord ∧
      applyPurchaseTx customer transaction_id fiat2 redeem2 now2 w2 = w2 := by
  simp only [processPurchaseTx] at h
  split at h
  · exact Except.noConfusion h
  rename_i hmem
  split at h
  · exact Except.noConfusion h
  rename_i r hr
  injection h with h
  subst h
  dsimp only
  refine ⟨rfl, ?_⟩
  intro fiat2 redeem2 now2
  have hmem2 : (customer, transaction_id) ∈
      ((customer, transaction_id) :: w.existing_records) := List.mem_cons_self _ _
  constructor
  · simp only [processPurchaseTx]
    rw [if_pos hmem2]
  · simp only [applyPurchaseTx, processPurchaseTx]
    rw [if_pos hmem2]

/-- A world with no purchase records, a 100%-cashback merchant and an empty
customer account. -/
def emptyWorld : PurchaseWorld :=
  { existing_records := [], config := { total_supply := 0 },
    merchant := merchantFullRate, customer_balance := 0 }

/-- `emptyWorld` after customer 7 submitted purchase `(7, 9)` of 1000 IDR:
the record exists, 10^9 base units were minted to the customer, and the
merchant counters advanced. -/
def worldAfterPurchase : PurchaseWorld :=
  { existing_records := [(7, 9)],
    config := { total_supply := 1000000000 },
    merchant := {
      merchantFullRate with
      total_transactions := 1,
      total_rewards_distributed := 1000000000,
      total_volume := 1000 },
    customer_balance := 1000000000 }

theorem claim_C5_witness :
    processPurchaseTx 7 9 500 none 0 worldAfterPurchase =
      .error .duplicateRecord ∧
    applyPurchaseTx 7 9 500 none 0 worldAfterPurchase = worldAfterPurchase :=
  (claim_C5_replay_protection
    (rfl : processPurchaseTx 7 9 1000 none 0 emptyWorld =
      .ok worldAfterPurchase)).2 500 none 0

/-- C6 (code bug): the caller-facing dispatch (`lib.rs` `mod carsa`)
exposes nine entries, not the eleven operations of spec section 4: none of
the five voucher-pool instructions is dispatched, and its
`process_purchase` entry takes only `(purchase_amount, transaction_id)`,
which does not match `ProcessPurchase::handler`'s
`(fiat_amount, redeem_token_amount, transaction_id)` — `lib.rs` even calls
the handler with those two data arguments, so the dispatch is stale
relative to the implemented handlers the spec describes. -/
theorem claim_C6_dispatch_mismatch :
    carsaDispatch.length = 9 ∧
    (∀ op ∈ ["initialize_pool", "update_pool_config", "deposit_voucher",
        "record_yield", "redeem_voucher"],
      op ∈ specSurfaceOps ∧ op ∉ carsaDispatch.map Prod.fst) ∧
    carsaDispatch.lookup "process_purchase" = some [ArgTy.u64, ArgTy.bytes32] ∧
    processPurchaseHandlerArgs = [ArgTy.u64, ArgTy.optU64, ArgTy.bytes32] ∧
    carsaDispatch.lookup "process_purchase" ≠ some processPurchaseHandlerArgs ∧
    ¬ (∀ op ∈ specSurfaceOps, op ∈ carsaDispatch.map Prod.fst) := by
  decide

/-- C7 (confirmed): a successful `RecordYield(sol_amount)` adds
`sol_amount` (checked) to both `total_sol_staked` and `total_yield_earned`;
with `total_voucher_staked = 0` it leaves `reward_index` unchanged, with
`total_voucher_staked > 0` it raises `reward_index` by exactly
`floor(sol_amount * 10^12 / total_voucher_staked)`; besides those fields
only `last_yield_update` changes. -/
theorem claim_C7_record_yield_frame {sol : Nat} {now : Int} {p p2 : PoolState}
    (h : RecordYield.handler sol now p = .ok p2) :
    p2.total_sol_staked = p.total_sol_staked + sol ∧
    p2.total_yield_earned = p.total_yield_earned + sol ∧
    (p.total_voucher_staked = 0 → p2.reward_index = p.reward_index) ∧
    (0 < p.total_voucher_staked →
      p2.reward_index = p.reward_index + sol * SCALE / p.total_voucher_staked) ∧
    p2.config = p.config ∧
    p2.total_voucher_staked = p.total_voucher_staked ∧
    p2.total_stakers = p.total_stakers ∧
    p2.created_at = p.created_at ∧
    p2.last_yield_update = now := by
  obtain ⟨h1, h2, h3, h4, h5, h6, h7, h8, h9, -⟩ := recordYield_ok h
  exact ⟨h1, h2, h8, h9, h4, h5, h6, h7, h3⟩

theorem claim_C7_witness :
    poolAfterYield.total_sol_staked = poolFourStaked.total_sol_staked + 8 ∧
    poolAfterYield.reward_index =
      poolFourStaked.reward_index + 8 * SCALE / poolFourStaked.total_voucher_staked :=
  have h := claim_C7_record_yield_frame
    (rfl : RecordYield.handler 8 0 poolFourStaked = .ok poolAfterYield)
  ⟨h.1, h.2.2.2.1 (by decide)⟩

/-- One operation of the staking-pool engine acting on an existing pool
and one user's stake record. -/
inductive PoolOp where
  | deposit (amount : Nat) (now : Int)
  | yieldEvent (sol : Nat) (now : Int)
  | redeem (amount : Nat) (now : Int)
  | updateCfg (c : PoolConfig)
  deriving Repr

/-- Dispatch one `PoolOp` to the corresponding handler. -/
def poolStep (op : PoolOp) (s : PoolState × UserStakeRecord) :
    Except CarsaError (PoolState × UserStakeRecord) :=
  match op with
  | .deposit a n => DepositVoucher.handler a n s.1 s.2
  | .yieldEvent a n => (RecordYield.handler a n s.1).map fun p => (p, s.2)
  | .redeem a n => (RedeemVoucher.handler a n s.1 s.2).map fun r => (r.pool, r.user)
  | .updateCfg c => (UpdatePoolConfig.handler c s.1).map fun p => (p, s.2)

/-- C8 (confirmed): `reward_index` is monotonically non-decreasing — every
successful `DepositVoucher`, `RecordYield`, `RedeemVoucher` or
`UpdatePoolConfig` leaves the pool's `reward_index` greater than or equal
to its previous value, and `InitializePool` creates the pool with
`reward_index = 0`. -/
theorem claim_C8_reward_index_monotone :
    (∀ (op : PoolOp) (s s2 : PoolState × UserStakeRecord),
      poolStep op s = .ok s2 → s.1.reward_index ≤ s2.1.reward_index) ∧
    (∀ (c : PoolConfig) (now : Int) (p : PoolState),
      InitializePool.handler c now = .ok p → p.reward_index = 0) := by
  constructor
  · intro op s s2 h
    cases op with
    | deposit a n =>
      obtain ⟨p2, u2⟩ := s2
      obtain ⟨h1, -⟩ := depositVoucher_ok h
      dsimp only
      omega
    | yieldEvent a n =>
      simp only [poolStep] at h
      cases hm : RecordYield.handler a n s.1 with
      | error e =>
        rw [hm] at h
        exact Except.noConfusion h
      | ok p =>
        rw [hm] at h
        simp only [Except.map] at h
        injection h with h
        subst h
        obtain ⟨-, -, -, -, -, -, -, hz, hp, -⟩ := recordYield_ok hm
        dsimp only
        rcases Nat.eq_zero_or_pos s.1.total_voucher_staked with h0 | h0
        · rw [hz h0]
        · rw [hp h0]
          exact Nat.le_add_right _ _
    | redeem a n =>
      simp only [poolStep] at h
      cases hm : RedeemVoucher.handler a n s.1 s.2 with
      | error e =>
        rw [hm] at h
        exact Except.noConfusion h
      | ok res =>
        rw [hm] at h
        simp only [Except.map] at h
        injection h with h
        subst h
        obtain ⟨-, -, -, -, -, -, -, -, -, -, h11, -⟩ := redeemVoucher_ok hm
        dsimp only
        omega
    | updateCfg c =>
      simp only [poolStep] at h
      cases hm : UpdatePoolConfig.handler c s.1 with
      | error e =>
        rw [hm] at h
        exact Except.noConfusion h
      | ok p =>
        rw [hm] at h
        simp only [Except.map] at h
        injection h with h
        subst h
        rw [updatePoolConfig_ok hm]
  · intro c now p h
    rw [initializePool_ok h]

theorem claim_C8_witness : poolFourStaked.reward_index ≤ poolAfterYield.reward_index :=
  claim_C8_reward_index_monotone.1 (.yieldEvent 8 0) (poolFourStaked, zeroStake)
    (poolAfterYield, zeroStake) (by rfl)

/-- C9 (confirmed): `transfer_tokens` rejects a recipient equal to the
sender (`SelfTransferNotAllowed`), `amount = 0`
(`InvalidTransferAmount`), `amount > MAX_TRANSFER_AMOUNT`
(`TransferAmountTooLarge`), and a sender balance below `amount`
(`InsufficientBalance`); on success — which also requires the memo to be
at most 64 bytes — it moves `amount` between the two balances and creates
an immutable `TokenTransfer` record holding sender, recipient, amount,
transaction id and the (zero-padded) memo. -/
theorem claim_C9_transfer_validation
    (sender recipient amount transaction_id : Nat) (memo : List Nat)
    (sender_balance recipient_balance : Nat) (now : Int) :
    (recipient = sender →
      TransferTokens.handler sender recipient amount transaction_id memo
        sender_balance recipient_balance now = .error .SelfTransferNotAllowed) ∧
    (recipient ≠ sender → amount = 0 →
      TransferTokens.handler sender recipient amount transaction_id memo
        sender_balance recipient_balance now = .error .InvalidTransferAmount) ∧
    (recipient ≠ sender → 0 < amount → MAX_TRANSFER_AMOUNT < amount →
      TransferTokens.handler sender recipient amount transaction_id memo
        sender_balance recipient_balance now = .error .TransferAmountTooLarge) ∧
    (recipient ≠ sender → 0 < amount → amount ≤ MAX_TRANSFER_AMOUNT →
      memo.length ≤ 64 → sender_balance < amount →
      TransferTokens.handler sender recipient amount transaction_id memo
        sender_balance recipient_balance now = .error .InsufficientBalance) ∧
    (recipient ≠ sender → 0 < amount → amount ≤ MAX_TRANSFER_AMOUNT →
      memo.length ≤ 64 → amount ≤ sender_balance →
      TransferTokens.handler sender recipient amount transaction_id memo
        sender_balance recipient_balance now =
        .ok { record := {
                sender := sender,
                recipient := recipient,
                amount := amount,
                timestamp := now,
                transaction_id := transaction_id,
                memo := memo ++ List.replicate (64 - memo.length) 0 },
              sender_balance := sender_balance - amount,
              recipient_balance := recipient_balance + amount }) := by
  refine ⟨?_, ?_, ?_, ?_, ?_⟩
  · intro h
    simp only [TransferTokens.handler, if_pos h]
  · intro h1 h2
    simp only [TransferTokens.handler, if_neg h1, if_pos h2]
  · intro h1 h2 h3
    have hne : ¬ amount = 0 := by omega
    simp only [TransferTokens.handler, if_neg h1, if_neg hne, if_pos h3]
  · intro h1 h2 h3 h4 h5
    have hne : ¬ amount = 0 := by omega
    have hmax : ¬ MAX_TRANSFER_AMOUNT < amount := by omega
    have hmemo : ¬ 64 < memo.length := by omega
    simp only [TransferTokens.handler, if_neg h1, if_neg hne, if_neg hmax,
      if_neg hmemo, if_pos h5]
  · intro h1 h2 h3 h4 h5
    have hne : ¬ amount = 0 := by omega
    have hmax : ¬ MAX_TRANSFER_AMOUNT < amount := by omega
    have hmemo : ¬ 64 < memo.length := by omega
    have hbal : ¬ sender_balance < amount := by omega
    simp only [TransferTokens.handler, if_neg h1, if_neg hne, if_neg hmax,
      if_neg hmemo, if_neg hbal]

theorem claim_C9_witness :
    TransferTokens.handler 1 2 5 3 [104, 105] 10 0 0 =
      .ok { record := {
              sender := 1,
              recipient := 2,
              amount := 5,
              timestamp := 0,
              transaction_id := 3,
              memo := [104, 105] ++ List.replicate (64 - 2) 0 },
            sender_balance := 10 - 5,
            recipient_balance := 0 + 5 } :=
  (claim_C9_transfer_validation 1 2 5 3 [104, 105] 10 0 0).2.2.2.2
    (by decide) (by decide) (by decide) (by decide) (by decide)

/-- C10 (confirmed): a deposit by a user who already has a positive stake
leaves `user_reward_index` and `total_yield_claimed` untouched (no yield is
settled at deposit time) and just raises `staked_amount`; a later
successful redemption therefore computes `claimable_yield` as the full
post-top-up `staked_amount` times the whole reward-index delta since the
user's previous snapshot — crediting the newly deposited tokens with yield
recorded before they were staked. -/
theorem claim_C10_topup_no_settlement
    {amount : Nat} {now : Int} {p : PoolState} {u : UserStakeRecord}
    {p2 : PoolState} {u2 : UserStakeRecord}
    (hpos : 0 < u.staked_amount)
    (hdep : DepositVoucher.handler amount now p u = .ok (p2, u2)) :
    u2.user_reward_index = u.user_reward_index ∧
    u2.total_yield_claimed = u.total_yield_claimed ∧
    u2.staked_amount = u.staked_amount + amount ∧
    p2.reward_index = p.reward_index ∧
    ∀ {p3 : PoolState} {amt2 : Nat} {n2 : Int} {res : RedeemResult},
      RedeemVoucher.handler amt2 n2 p3 u2 = .ok res →
      (u.staked_amount + amount) * (p3.reward_index - u.user_reward_index) / SCALE
        < U64_MOD →
      res.claimable_yield =
        (u.staked_amount + amount) * (p3.reward_index - u.user_reward_index) / SCALE := by
  obtain ⟨hri, -, -, -, -, hstk, -, -, htop⟩ := depositVoucher_ok hdep
  obtain ⟨huri, hcl, -⟩ := htop hpos
  refine ⟨huri, hcl, hstk, hri, ?_⟩
  intro p3 amt2 n2 res hred hfit
  obtain ⟨-, hcy, -⟩ := redeemVoucher_ok hred
  rw [hcy, huri, hstk]
  exact Nat.mod_eq_of_lt hfit

/-- A user holding a 3-unit stake taken before any yield. -/
def earlyStake : UserStakeRecord :=
  { staked_amount := 3, user_reward_index := 0, total_yield_claimed := 0,
    staked_at := 0, last_action_at := 0 }

/-- A pool holding only `earlyStake`'s 3 units, no yield yet. -/
def poolThreeStaked : PoolState :=
  { poolFourStaked with total_voucher_staked := 3 }

/-- `poolThreeStaked` after `earlyStake` tops up by 5. -/
def poolThreeAfterTopup : PoolState :=
  { poolThreeStaked with total_voucher_staked := 8 }

/-- `earlyStake` after topping up by 5: the snapshot is still 0. -/
def earlyStakeToppedUp : UserStakeRecord :=
  { earlyStake with staked_amount := 8 }

/-- `poolThreeAfterTopup` after yield pushed the index to `2 * 10^12`. -/
def poolThreeYielded : PoolState :=
  { poolThreeAfterTopup with reward_index := 2000000000000 }

/-- Result of redeeming the full 8 units after the index rose: all 8 units
earn the full delta, including the 5 deposited after the yield period
began. -/
def topupRedeem : RedeemResult :=
  { pool := {
      poolThreeYielded with
      total_voucher_staked := 0,
      total_stakers := 0 },
    user := {
      earlyStakeToppedUp with
      staked_amount := 0,
      user_reward_index := 2000000000000,
      total_yield_claimed := 16 },
    claimable_yield := 16 }

theorem claim_C10_witness :
    topupRedeem.claimable_yield =
      (earlyStake.staked_amount + 5) *
        (poolThreeYielded.reward_index - earlyStake.user_reward_index) / SCALE :=
  (claim_C10_topup_no_settlement (by decide)
    (rfl : DepositVoucher.handler 5 0 poolThreeStaked earlyStake =
      .ok (poolThreeAfterTopup, earlyStakeToppedUp))).2.2.2.2
    (rfl : RedeemVoucher.handler 8 0 poolThreeYielded earlyStakeToppedUp =
      .ok topupRedeem)
    (by decide)
